import Mathlib

/-!
# Verification of `karkas2.py`

A shallow embedding of the thermo-hydraulic pipeline in `karkas2.py`.

Two views of the code are embedded:

* a value-level view over `ℝ` (`calculate_pipe_area`, …, `mainLocals`,
  `main`), where Lean's total division/`Real.sqrt`/`Real.logb` stand in for
  the float operations on the non-error domain; and
* an exception-aware view (`pydiv`, `pylog10`, `pysqrt`,
  `calculate_temperature_changeE`, …, `mainE`) in the `Except PyError` monad,
  which models CPython's behaviour of raising `ZeroDivisionError` on a zero
  divisor and `ValueError` on `math.log10`/`math.sqrt` domain violations.

The driver `plot_velocity_vs_heating` is embedded as `sweepLoop`, threading
the shared mutable dictionaries (`St`) through each iteration, since the
Python loop assigns `heater['power']` in place.
-/

/-- The `pipe` dictionary: `diam`, `length`, `roughness`. -/
structure Pipe where
  diam : ℝ
  length : ℝ
  roughness : ℝ


/-- The `fluid` dictionary: `density`, `viscosity`, `thermal_expansion`,
`heat_capacity`, `temperature`, `speed`. -/
structure Fluid where
  density : ℝ
  viscosity : ℝ
  thermal_expansion : ℝ
  heat_capacity : ℝ
  temperature : ℝ
  speed : ℝ


/-- The `heater` dictionary: `power`, `efficiency`. -/
structure Heater where
  power : ℝ
  efficiency : ℝ


/-- Global constant `beta_viscosity = 0.02` from the source. -/
def beta_viscosity : ℝ := 0.02

/-- `calculate_pipe_area(diameter) = math.pi * (diameter / 2) ** 2`. -/
noncomputable def calculate_pipe_area (diameter : ℝ) : ℝ :=
  Real.pi * (diameter / 2) ^ 2

/-- `calculate_reynolds_number(density, velocity, diameter, viscosity)
 = (density * velocity * diameter) / viscosity`. -/
noncomputable def calculate_reynolds_number (density velocity diameter viscosity : ℝ) : ℝ :=
  (density * velocity * diameter) / viscosity

/-- The body of the turbulent-branch loop in `calculate_friction_factor`:
`f = 1 / (-2 * math.log10((roughness / (3.7 * diameter)) + (5.74 / (re**0.9))))`.
The previous value of `f` is received but never read, exactly as in the source. -/
noncomputable def colebrook_step (roughness diameter re : ℝ) (_f : ℝ) : ℝ :=
  1 / (-2 * Real.logb 10 ((roughness / (3.7 * diameter)) + (5.74 / re ^ (0.9 : ℝ))))

/-- `calculate_friction_factor(re, roughness, diameter)`: laminar `64/re` for
`re < 2000`, ten iterations of `colebrook_step` from `f = 0.02` for
`re >= 4000`, and the constant `0.5` otherwise. -/
noncomputable def calculate_friction_factor (re roughness diameter : ℝ) : ℝ :=
  if re < 2000 then 64 / re
  else if 4000 ≤ re then (colebrook_step roughness diameter re)^[10] 0.02
  else 0.5

/-- `calculate_temperature_change(power, efficiency, density, velocity, area,
heat_capacity)`: `mass_flow_rate = density * velocity * area`,
`effective_power = power * efficiency`,
`delta_t = effective_power / (mass_flow_rate * heat_capacity)`. -/
noncomputable def calculate_temperature_change
    (power efficiency density velocity area heat_capacity : ℝ) : ℝ :=
  let mass_flow_rate := density * velocity * area
  let effective_power := power * efficiency
  effective_power / (mass_flow_rate * heat_capacity)

/-- `calculate_new_density(initial_density, thermal_expansion, delta_t)
 = initial_density * (1 - thermal_expansion * delta_t)`. -/
def calculate_new_density (initial_density thermal_expansion delta_t : ℝ) : ℝ :=
  initial_density * (1 - thermal_expansion * delta_t)

/-- `calculate_new_viscosity(initial_viscosity, beta, delta_t)
 = initial_viscosity * math.exp(-beta * delta_t)`. -/
noncomputable def calculate_new_viscosity (initial_viscosity beta delta_t : ℝ) : ℝ :=
  initial_viscosity * Real.exp (-beta * delta_t)

/-- `calculate_max_velocity(delta_pressure, density, diameter, friction_factor)
 = math.sqrt((2 * delta_pressure) / (friction_factor * density))`.
Note the division by 10 is NOT here: it is applied at the call sites in `main`. -/
noncomputable def calculate_max_velocity
    (delta_pressure density _diameter friction_factor : ℝ) : ℝ :=
  Real.sqrt ((2 * delta_pressure) / (friction_factor * density))

/-- All local variables computed by the body of `main`, in order. -/
structure MainLocals where
  area : ℝ
  delta_t : ℝ
  new_temperature : ℝ
  new_density : ℝ
  new_viscosity : ℝ
  re_initial : ℝ
  re_new : ℝ
  friction_factor_initial : ℝ
  friction_factor_new : ℝ
  max_velocity_initial : ℝ
  max_velocity_new : ℝ

/-- The straight-line body of `main(pipe, fluid, heater, delta_pressure)`,
statement by statement (the `print` calls are presentation-only). -/
noncomputable def mainLocals (pipe : Pipe) (fluid : Fluid) (heater : Heater)
    (delta_pressure : ℝ) : MainLocals :=
  let diameter := pipe.diam
  let roughness := pipe.roughness
  let initial_density := fluid.density
  let initial_viscosity := fluid.viscosity
  let thermal_expansion := fluid.thermal_expansion
  let heat_capacity := fluid.heat_capacity
  let initial_temperature := fluid.temperature
  let initial_speed := fluid.speed
  let power := heater.power
  let efficiency := heater.efficiency
  let area := calculate_pipe_area diameter
  let delta_t := calculate_temperature_change power efficiency initial_density
    initial_speed area heat_capacity
  let new_temperature := initial_temperature + delta_t
  let new_density := calculate_new_density initial_density thermal_expansion delta_t
  let new_viscosity := calculate_new_viscosity initial_viscosity beta_viscosity delta_t
  let re_initial := calculate_reynolds_number initial_density initial_speed diameter
    initial_viscosity
  let re_new := calculate_reynolds_number new_density initial_speed diameter new_viscosity
  let friction_factor_initial := calculate_friction_factor re_initial roughness diameter
  let friction_factor_new := calculate_friction_factor re_new roughness diameter
  let max_velocity_initial :=
    calculate_max_velocity delta_pressure initial_density diameter friction_factor_initial / 10
  let max_velocity_new :=
    calculate_max_velocity delta_pressure new_density diameter friction_factor_new / 10
  ⟨area, delta_t, new_temperature, new_density, new_viscosity, re_initial, re_new,
    friction_factor_initial, friction_factor_new, max_velocity_initial, max_velocity_new⟩

/-- The dictionary returned by `main`, with exactly the keys of the source's
return statement, as an association list. -/
noncomputable def main (pipe : Pipe) (fluid : Fluid) (heater : Heater)
    (delta_pressure : ℝ) : List (String × ℝ) :=
  let l := mainLocals pipe fluid heater delta_pressure
  [("delta_t", l.delta_t),
   ("new_temperature", l.new_temperature),
   ("new_density", l.new_density),
   ("new_viscosity", l.new_viscosity),
   ("re_new", l.re_new),
   ("friction_factor_new", l.friction_factor_new),
   ("max_velocity_new", l.max_velocity_new)]

/-- The module-level `pipe` dictionary of the source. -/
noncomputable def pipe : Pipe := ⟨0.5, 10, 0.0001⟩

/-- The module-level `fluid` dictionary of the source. -/
noncomputable def fluid : Fluid := ⟨850, 0.1, 0.0007, 2100, 20, 1⟩

/-- The module-level `heater` dictionary of the source. -/
noncomputable def heater : Heater := ⟨500000, 0.9⟩

/-- The module-level `delta_pressure` of the source. -/
def delta_pressure : ℝ := 50000

/-! ## Exception-aware model

CPython raises `ZeroDivisionError` when a float division has a zero divisor,
and `math.log10` / `math.sqrt` raise `ValueError` outside their domains;
indexing a dict with a missing key raises `KeyError`. The following model
tracks exactly these exceptions in the `Except` monad. -/

/-- The Python exceptions that the arithmetic of `karkas2.py` can raise. -/
inductive PyError where
  | zeroDivisionError
  | valueError
  | keyError
deriving DecidableEq

/-- Python float division: raises `ZeroDivisionError` on a zero divisor. -/
noncomputable def pydiv (a b : ℝ) : Except PyError ℝ :=
  if b = 0 then .error .zeroDivisionError else .ok (a / b)

/-- Python `math.log10`: raises `ValueError` on a non-positive argument. -/
noncomputable def pylog10 (x : ℝ) : Except PyError ℝ :=
  if x ≤ 0 then .error .valueError else .ok (Real.logb 10 x)

/-- Python `math.sqrt`: raises `ValueError` on a negative argument. -/
noncomputable def pysqrt (x : ℝ) : Except PyError ℝ :=
  if x < 0 then .error .valueError else .ok (Real.sqrt x)

/-- Python dict lookup `d[k]`: raises `KeyError` when the key is missing. -/
def pyGet (d : List (String × ℝ)) (k : String) : Except PyError ℝ :=
  match d.lookup k with
  | some v => .ok v
  | none => .error .keyError

/-- `calculate_reynolds_number` with Python division semantics. -/
noncomputable def calculate_reynolds_numberE
    (density velocity diameter viscosity : ℝ) : Except PyError ℝ :=
  pydiv (density * velocity * diameter) viscosity

/-- `calculate_friction_factor` with Python exception semantics: the laminar
division can raise `ZeroDivisionError`, and each turbulent iteration performs
two divisions, a `log10` and a final division by `-2 * log10(...)`. -/
noncomputable def calculate_friction_factorE (re roughness diameter : ℝ) : Except PyError ℝ :=
  if re < 2000 then pydiv 64 re
  else if 4000 ≤ re then
    (List.range 10).foldlM (fun _f _i => do
      let a ← pydiv roughness (3.7 * diameter)
      let b ← pydiv 5.74 (re ^ (0.9 : ℝ))
      let l ← pylog10 (a + b)
      pydiv 1 (-2 * l)) (0.02 : ℝ)
  else pure 0.5

/-- `calculate_temperature_change` with Python division semantics. -/
noncomputable def calculate_temperature_changeE
    (power efficiency density velocity area heat_capacity : ℝ) : Except PyError ℝ :=
  let mass_flow_rate := density * velocity * area
  let effective_power := power * efficiency
  pydiv effective_power (mass_flow_rate * heat_capacity)

/-- `calculate_max_velocity` with Python semantics: the division may raise
`ZeroDivisionError` and the square root `ValueError`. -/
noncomputable def calculate_max_velocityE
    (delta_pressure density _diameter friction_factor : ℝ) : Except PyError ℝ := do
  let r ← pydiv (2 * delta_pressure) (friction_factor * density)
  pysqrt r

/-- `main` with Python exception semantics: the same statements as
`mainLocals`/`main`, each fallible step sequenced in program order, returning
the source's result dictionary. -/
noncomputable def mainE (pipe : Pipe) (fluid : Fluid) (heater : Heater)
    (delta_pressure : ℝ) : Except PyError (List (String × ℝ)) := do
  let diameter := pipe.diam
  let roughness := pipe.roughness
  let initial_density := fluid.density
  let initial_viscosity := fluid.viscosity
  let thermal_expansion := fluid.thermal_expansion
  let heat_capacity := fluid.heat_capacity
  let initial_temperature := fluid.temperature
  let initial_speed := fluid.speed
  let power := heater.power
  let efficiency := heater.efficiency
  let area := calculate_pipe_area diameter
  let delta_t ← calculate_temperature_changeE power efficiency initial_density
    initial_speed area heat_capacity
  let new_temperature := initial_temperature + delta_t
  let new_density := calculate_new_density initial_density thermal_expansion delta_t
  let new_viscosity := calculate_new_viscosity initial_viscosity beta_viscosity delta_t
  let re_initial ← calculate_reynolds_numberE initial_density initial_speed diameter
    initial_viscosity
  let re_new ← calculate_reynolds_numberE new_density initial_speed diameter new_viscosity
  let friction_factor_initial ← calculate_friction_factorE re_initial roughness diameter
  let friction_factor_new ← calculate_friction_factorE re_new roughness diameter
  let mvi ← calculate_max_velocityE delta_pressure initial_density diameter
    friction_factor_initial
  let max_velocity_initial := mvi / 10
  let mvn ← calculate_max_velocityE delta_pressure new_density diameter friction_factor_new
  let max_velocity_new := mvn / 10
  pure [("delta_t", delta_t),
        ("new_temperature", new_temperature),
        ("new_density", new_density),
        ("new_viscosity", new_viscosity),
        ("re_new", re_new),
        ("friction_factor_new", friction_factor_new),
        ("max_velocity_new", max_velocity_new)]

/-- The heap of shared mutable dictionaries that the source passes around:
`pipe`, `fluid` and `heater`. -/
structure St where
  pipe : Pipe
  fluid : Fluid
  heater : Heater

/-- `main` viewed as acting on the shared dictionaries: its body only reads
them (it contains no subscript assignment), so the final heap is the initial
one, returned alongside the result. -/
noncomputable def mainSt (s : St) (delta_pressure : ℝ) :
    Except PyError (List (String × ℝ) × St) := do
  let r ← mainE s.pipe s.fluid s.heater delta_pressure
  pure (r, s)

/-- The loop of `plot_velocity_vs_heating`: for each `power` it assigns
`heater['power'] = power` (a write to the shared heap), calls `main`, and
appends `ans['max_velocity_new']` to `velocities`. -/
noncomputable def sweepLoop (delta_pressure : ℝ) :
    List ℝ → St → List ℝ → Except PyError (List ℝ × St)
  | [], s, velocities => .ok (velocities, s)
  | power :: rest, s, velocities => do
    let s1 : St := ⟨s.pipe, s.fluid, ⟨power, s.heater.efficiency⟩⟩
    let a ← mainSt s1 delta_pressure
    let v ← pyGet a.1 "max_velocity_new"
    sweepLoop delta_pressure rest a.2 (velocities ++ [v])

/-- `plot_velocity_vs_heating(pipe, fluid, heater, delta_pressure,
power_range)`: runs the sweep loop starting from empty `velocities`;
the chart rendering is presentation-only. Returns the collected velocities
together with the final state of the shared dictionaries. -/
noncomputable def plot_velocity_vs_heating (pipe : Pipe) (fluid : Fluid) (heater : Heater)
    (delta_pressure : ℝ) (power_range : List ℝ) : Except PyError (List ℝ × St) :=
  sweepLoop delta_pressure power_range ⟨pipe, fluid, heater⟩ []

/-! ## Concrete inputs used by the witnesses

`pipe1`/`fluid1`/`heater1` are chosen so that every quantity in the pipeline
evaluates in closed form: zero heater power makes `delta_t = 0`, and unit
fluid parameters put both Reynolds numbers at `1`, in the laminar branch. -/

/-- Witness pipe: `diam = 1`, `length = 1`, `roughness = 0`. -/
noncomputable def pipe1 : Pipe := ⟨1, 1, 0⟩

/-- Witness fluid: all unit parameters, temperature 20. -/
noncomputable def fluid1 : Fluid := ⟨1, 1, 1, 1, 20, 1⟩

/-- Witness heater: zero power, unit efficiency. -/
noncomputable def heater1 : Heater := ⟨0, 1⟩

/-- Witness heater with nonzero power, for the sweep. -/
noncomputable def heater2 : Heater := ⟨500000, 1⟩

/-- `fluid1` with `viscosity = 0` (violates the viscosity precondition). -/
noncomputable def fluid1V : Fluid := ⟨1, 0, 1, 1, 20, 1⟩

/-- `fluid1` with `heat_capacity = 0` (violates the heat-capacity precondition). -/
noncomputable def fluid1C : Fluid := ⟨1, 1, 1, 0, 20, 1⟩

/-- The result dictionary of `main(pipe1, fluid1, heater1, 32)`. -/
noncomputable def res1 : List (String × ℝ) :=
  [("delta_t", 0), ("new_temperature", 20), ("new_density", 1), ("new_viscosity", 1),
   ("re_new", 1), ("friction_factor_new", 64), ("max_velocity_new", 1 / 10)]

/-! ## Helper lemmas for the `Except` monad and the Python primitives -/

theorem okBind {α β : Type} (a : α) (f : α → Except PyError β) :
    (Except.ok a >>= f) = f a := rfl

theorem errBind {α β : Type} (e : PyError) (f : α → Except PyError β) :
    ((Except.error e : Except PyError α) >>= f) = .error e := rfl

theorem pureEq {α : Type} (a : α) : (pure a : Except PyError α) = .ok a := rfl

theorem pydiv_ok (a b : ℝ) (h : b ≠ 0) : pydiv a b = .ok (a / b) := by
  simp [pydiv, h]

theorem pydiv_err (a b : ℝ) (h : b = 0) : pydiv a b = .error .zeroDivisionError := by
  simp [pydiv, h]

theorem pylog10_ok (x : ℝ) (h : 0 < x) : pylog10 x = .ok (Real.logb 10 x) := by
  simp [pylog10, not_le.mpr h]

theorem pysqrt_ok (x : ℝ) (h : 0 ≤ x) : pysqrt x = .ok (Real.sqrt x) := by
  simp [pysqrt, not_lt.mpr h]

theorem pysqrt_err (x : ℝ) (h : x < 0) : pysqrt x = .error .valueError := by
  simp [pysqrt, h]

theorem tcE_eval1 : calculate_temperature_changeE 0 1 1 1 (calculate_pipe_area 1) 1 =
    .ok 0 := by
  norm_num [calculate_temperature_changeE, calculate_pipe_area, pydiv, Real.pi_ne_zero]

theorem reE_eval1 : calculate_reynolds_numberE 1 1 1 1 = .ok 1 := by
  norm_num [calculate_reynolds_numberE, pydiv]

theorem ffE_eval1 : calculate_friction_factorE 1 0 1 = .ok 64 := by
  norm_num [calculate_friction_factorE, pydiv]

theorem mvE_eval1 : calculate_max_velocityE 32 1 1 64 = .ok 1 := by
  norm_num [calculate_max_velocityE, pydiv, pysqrt, okBind, Real.sqrt_one]

theorem mainE_eval1 : mainE pipe1 fluid1 heater1 32 = .ok res1 := by
  norm_num [mainE, pipe1, fluid1, heater1, calculate_new_density, calculate_new_viscosity,
    beta_viscosity, Real.exp_zero, tcE_eval1, reE_eval1, ffE_eval1, mvE_eval1, okBind,
    pureEq, res1]

theorem mainLocals_friction_initial1 :
    (mainLocals pipe1 fluid1 heater1 32).friction_factor_initial = 64 := by
  norm_num [mainLocals, pipe1, fluid1, heater1, calculate_temperature_change,
    calculate_reynolds_number, calculate_friction_factor]

theorem mainLocals_friction_new1 :
    (mainLocals pipe1 fluid1 heater1 32).friction_factor_new = 64 := by
  norm_num [mainLocals, pipe1, fluid1, heater1, calculate_temperature_change,
    calculate_reynolds_number, calculate_friction_factor, calculate_new_density,
    calculate_new_viscosity, beta_viscosity, Real.exp_zero]

theorem mainLocals_new_density1 :
    (mainLocals pipe1 fluid1 heater1 32).new_density = 1 := by
  norm_num [mainLocals, pipe1, fluid1, heater1, calculate_temperature_change,
    calculate_new_density]

theorem reE_err1 : calculate_reynolds_numberE 1 1 1 0 = .error .zeroDivisionError := by
  norm_num [calculate_reynolds_numberE, pydiv]

theorem tcE_err1 : calculate_temperature_changeE 0 1 1 1 (calculate_pipe_area 1) 0 =
    .error .zeroDivisionError := by
  norm_num [calculate_temperature_changeE, pydiv]

theorem mvE_err1 : calculate_max_velocityE (-32) 1 1 64 = .error .valueError := by
  norm_num [calculate_max_velocityE, pydiv, pysqrt, okBind]

theorem mainE_errV : mainE pipe1 fluid1V heater1 32 = .error .zeroDivisionError := by
  norm_num [mainE, pipe1, fluid1V, heater1, calculate_new_density, calculate_new_viscosity,
    beta_viscosity, Real.exp_zero, tcE_eval1, reE_err1, okBind, errBind]

theorem mainE_errC : mainE pipe1 fluid1C heater1 32 = .error .zeroDivisionError := by
  norm_num [mainE, pipe1, fluid1C, heater1, tcE_err1, okBind, errBind]

theorem mainE_errS : mainE pipe1 fluid1 heater1 (-32) = .error .valueError := by
  norm_num [mainE, pipe1, fluid1, heater1, calculate_new_density, calculate_new_viscosity,
    beta_viscosity, Real.exp_zero, tcE_eval1, reE_eval1, ffE_eval1, mvE_err1, okBind, errBind]

theorem mainSt_ok_state (s : St) (dp : ℝ) (x : List (String × ℝ) × St)
    (h : mainSt s dp = .ok x) : x.2 = s := by
  unfold mainSt at h
  cases he : mainE s.pipe s.fluid s.heater dp with
  | error e => rw [he, errBind] at h; exact Except.noConfusion h
  | ok r =>
    rw [he, okBind, pureEq] at h
    injection h with h2
    rw [← h2]

theorem mainSt_eval1 : mainSt ⟨pipe1, fluid1, heater1⟩ 32 =
    .ok (res1, ⟨pipe1, fluid1, heater1⟩) := by
  have h : mainSt ⟨pipe1, fluid1, heater1⟩ 32 =
      (mainE pipe1 fluid1 heater1 32 >>= fun r => pure (r, (⟨pipe1, fluid1, heater1⟩ : St))) :=
    rfl
  rw [h, mainE_eval1, okBind, pureEq]

theorem pyGet_res1 : pyGet res1 "max_velocity_new" = .ok (1 / 10) := by
  simp [pyGet, res1, List.lookup]

theorem sweep_eval1 : plot_velocity_vs_heating pipe1 fluid1 heater2 32 [0] =
    .ok ([1 / 10], ⟨pipe1, fluid1, heater1⟩) := by
  have h : plot_velocity_vs_heating pipe1 fluid1 heater2 32 [0] =
      (mainSt ⟨pipe1, fluid1, heater1⟩ 32 >>= fun a =>
        pyGet a.1 "max_velocity_new" >>= fun v => sweepLoop 32 [] a.2 ([] ++ [v])) := rfl
  rw [h, mainSt_eval1, okBind]
  show (pyGet res1 "max_velocity_new" >>= fun v =>
    sweepLoop 32 [] (⟨pipe1, fluid1, heater1⟩ : St) ([] ++ [v])) = _
  rw [pyGet_res1, okBind]
  rfl

theorem sweepLoop_last_power (dp : ℝ) (pr : List ℝ) :
    ∀ (s : St) (acc vs : List ℝ) (s' : St),
      sweepLoop dp pr s acc = .ok (vs, s') → pr ≠ [] →
      pr.getLast? = some s'.heater.power := by
  induction pr with
  | nil => intro s acc vs s' _ hne; exact absurd rfl hne
  | cons p rest ih =>
    intro s acc vs s' hok _
    simp only [sweepLoop] at hok
    cases hms : mainSt ⟨s.pipe, s.fluid, ⟨p, s.heater.efficiency⟩⟩ dp with
    | error e => rw [hms, errBind] at hok; exact Except.noConfusion hok
    | ok a =>
      have hstate := mainSt_ok_state _ dp a hms
      rw [hms, okBind] at hok
      cases hg : pyGet a.1 "max_velocity_new" with
      | error e => rw [hg, errBind] at hok; exact Except.noConfusion hok
      | ok v =>
        rw [hg, okBind] at hok
        cases rest with
        | nil =>
          simp only [sweepLoop] at hok
          injection hok with h1
          rw [Prod.mk.injEq] at h1
          obtain ⟨h1a, h1b⟩ := h1
          subst h1b
          rw [hstate]
          simp [List.getLast?]
        | cons q rest2 =>
          have hr := ih a.2 (acc ++ [v]) vs s' hok (List.cons_ne_nil q rest2)
          rw [List.getLast?_cons_cons]
          exact hr

/-! ## The claims -/

/-- C1 (counterexample): at the source's own default inputs, the dictionary
returned by `main` has only seven entries, and contains no entry for the
initial Reynolds number, friction factor or max velocity under either the
spec's names or the source's local-variable names — so it does not contain
all ten claimed fields. -/
theorem main_result_missing_initial_fields :
    ((main pipe fluid heater 50000).map Prod.fst).length = 7 ∧
    (main pipe fluid heater 50000).lookup "reynolds_initial" = none ∧
    (main pipe fluid heater 50000).lookup "re_initial" = none ∧
    (main pipe fluid heater 50000).lookup "friction_initial" = none ∧
    (main pipe fluid heater 50000).lookup "friction_factor_initial" = none ∧
    (main pipe fluid heater 50000).lookup "max_velocity_initial" = none ∧
    (main pipe fluid heater 50000).lookup "reynolds_new" = none := by
  refine ⟨rfl, ?_, ?_, ?_, ?_, ?_, ?_⟩ <;> simp [main, List.lookup]

/-- C1 (amended): for every input, `main` returns a record with exactly the
seven keys `delta_t`, `new_temperature`, `new_density`, `new_viscosity`,
`re_new`, `friction_factor_new` and `max_velocity_new`, in this order; the
initial-state Reynolds number, friction factor and max velocity are computed
and printed but not returned. -/
theorem main_result_keys (p : Pipe) (fl : Fluid) (h : Heater) (dp : ℝ) :
    (main p fl h dp).map Prod.fst =
      ["delta_t", "new_temperature", "new_density", "new_viscosity", "re_new",
       "friction_factor_new", "max_velocity_new"] := rfl

/-- C2: for every input with positive density, nonzero friction factor and
non-negative radicand, the max-velocity values computed by `main` (both the
initial and the new one) equal `sqrt(2·Δp / (f·ρ)) / 10`, the division by 10
being applied to the square root. -/
theorem max_velocity_scaled_formula (p : Pipe) (fl : Fluid) (h : Heater) (dp : ℝ)
    (hdi : 0 < fl.density)
    (hfi : (mainLocals p fl h dp).friction_factor_initial ≠ 0)
    (hri : 0 ≤ 2 * dp / ((mainLocals p fl h dp).friction_factor_initial * fl.density))
    (hdn : 0 < (mainLocals p fl h dp).new_density)
    (hfn : (mainLocals p fl h dp).friction_factor_new ≠ 0)
    (hrn : 0 ≤ 2 * dp / ((mainLocals p fl h dp).friction_factor_new *
      (mainLocals p fl h dp).new_density)) :
    (mainLocals p fl h dp).max_velocity_initial =
      Real.sqrt (2 * dp / ((mainLocals p fl h dp).friction_factor_initial * fl.density))
        / 10 ∧
    (mainLocals p fl h dp).max_velocity_new =
      Real.sqrt (2 * dp / ((mainLocals p fl h dp).friction_factor_new *
        (mainLocals p fl h dp).new_density)) / 10 :=
  ⟨rfl, rfl⟩

/-- Witness for C2 at `pipe1`, `fluid1`, `heater1`, `Δp = 32`. -/
theorem max_velocity_scaled_formula_witness :
    (0:ℝ) < fluid1.density ∧
    (mainLocals pipe1 fluid1 heater1 32).friction_factor_initial ≠ 0 ∧
    0 ≤ 2 * 32 / ((mainLocals pipe1 fluid1 heater1 32).friction_factor_initial *
      fluid1.density) ∧
    0 < (mainLocals pipe1 fluid1 heater1 32).new_density ∧
    (mainLocals pipe1 fluid1 heater1 32).friction_factor_new ≠ 0 ∧
    0 ≤ 2 * 32 / ((mainLocals pipe1 fluid1 heater1 32).friction_factor_new *
      (mainLocals pipe1 fluid1 heater1 32).new_density) ∧
    ((mainLocals pipe1 fluid1 heater1 32).max_velocity_initial =
      Real.sqrt (2 * 32 / ((mainLocals pipe1 fluid1 heater1 32).friction_factor_initial *
        fluid1.density)) / 10 ∧
     (mainLocals pipe1 fluid1 heater1 32).max_velocity_new =
      Real.sqrt (2 * 32 / ((mainLocals pipe1 fluid1 heater1 32).friction_factor_new *
        (mainLocals pipe1 fluid1 heater1 32).new_density)) / 10) := by
  have hdi : (0:ℝ) < fluid1.density := by norm_num [fluid1]
  have hfi : (mainLocals pipe1 fluid1 heater1 32).friction_factor_initial ≠ 0 := by
    rw [mainLocals_friction_initial1]; norm_num
  have hri : 0 ≤ 2 * (32:ℝ) /
      ((mainLocals pipe1 fluid1 heater1 32).friction_factor_initial * fluid1.density) := by
    rw [mainLocals_friction_initial1]; norm_num [fluid1]
  have hdn : 0 < (mainLocals pipe1 fluid1 heater1 32).new_density := by
    rw [mainLocals_new_density1]; norm_num
  have hfn : (mainLocals pipe1 fluid1 heater1 32).friction_factor_new ≠ 0 := by
    rw [mainLocals_friction_new1]; norm_num
  have hrn : 0 ≤ 2 * (32:ℝ) /
      ((mainLocals pipe1 fluid1 heater1 32).friction_factor_new *
        (mainLocals pipe1 fluid1 heater1 32).new_density) := by
    rw [mainLocals_friction_new1, mainLocals_new_density1]; norm_num
  exact ⟨hdi, hfi, hri, hdn, hfn, hrn,
    max_velocity_scaled_formula pipe1 fluid1 heater1 32 hdi hfi hri hdn hfn hrn⟩

/-- C3: for `Re ≥ 4000` the friction factor returned after the fixed
10-iteration loop equals a single application of
`1 / (-2·log10(roughness/(3.7·d) + 5.74/Re^0.9))`, and the loop's value is
independent of the initial guess, because the body never reads the previous
`f`. -/
theorem friction_turbulent_closed_form (re r d : ℝ) (h : 4000 ≤ re) :
    calculate_friction_factor re r d =
      1 / (-2 * Real.logb 10 (r / (3.7 * d) + 5.74 / re ^ (0.9 : ℝ))) ∧
    ∀ f0 : ℝ, (colebrook_step r d re)^[10] f0 =
      1 / (-2 * Real.logb 10 (r / (3.7 * d) + 5.74 / re ^ (0.9 : ℝ))) := by
  have hiter : ∀ f0 : ℝ, (colebrook_step r d re)^[10] f0 =
      1 / (-2 * Real.logb 10 (r / (3.7 * d) + 5.74 / re ^ (0.9 : ℝ))) := by
    intro f0
    rw [show (10:ℕ) = 9 + 1 from rfl, Function.iterate_succ_apply']
    rfl
  refine ⟨?_, hiter⟩
  unfold calculate_friction_factor
  rw [if_neg (not_lt.mpr (by linarith)), if_pos h]
  exact hiter 0.02

/-- Witness for C3 at `Re = 4000`, roughness `0`, diameter `1`, with the
iteration also started from the arbitrary guess `7`. -/
theorem friction_turbulent_closed_form_witness :
    (4000:ℝ) ≤ 4000 ∧
    calculate_friction_factor 4000 0 1 =
      1 / (-2 * Real.logb 10 ((0:ℝ) / (3.7 * 1) + 5.74 / (4000:ℝ) ^ (0.9 : ℝ))) ∧
    (colebrook_step 0 1 4000)^[10] 7 =
      1 / (-2 * Real.logb 10 ((0:ℝ) / (3.7 * 1) + 5.74 / (4000:ℝ) ^ (0.9 : ℝ))) := by
  have h := friction_turbulent_closed_form 4000 0 1 (by norm_num)
  exact ⟨by norm_num, h.1, h.2 7⟩

/-- C4: the friction-factor function branches three ways on `Re`: below 2000
it returns `64/Re` (so `0.064` at `Re = 1000`, and a `ZeroDivisionError` at
`Re = 0`), and on `2000 ≤ Re < 4000` it returns exactly `0.5` regardless of
roughness and diameter. -/
theorem friction_factor_branches (re1 re2 r d : ℝ) (h1 : re1 < 2000) (h1ne : re1 ≠ 0)
    (h2 : 2000 ≤ re2) (h2lt : re2 < 4000) :
    calculate_friction_factor re1 r d = 64 / re1 ∧
    calculate_friction_factor 1000 r d = 0.064 ∧
    calculate_friction_factorE 0 r d = .error .zeroDivisionError ∧
    calculate_friction_factor re2 r d = 0.5 := by
  refine ⟨?_, ?_, ?_, ?_⟩
  · unfold calculate_friction_factor; rw [if_pos h1]
  · unfold calculate_friction_factor
    rw [if_pos (by norm_num : (1000:ℝ) < 2000)]; norm_num
  · unfold calculate_friction_factorE
    rw [if_pos (by norm_num : (0:ℝ) < 2000)]
    exact pydiv_err 64 0 rfl
  · unfold calculate_friction_factor
    rw [if_neg (not_lt.mpr h2), if_neg (not_le.mpr h2lt)]

/-- Witness for C4 at `Re = 1000` (laminar) and `Re = 3000` (transitional),
with the source's default roughness and diameter. -/
theorem friction_factor_branches_witness :
    ((1000:ℝ) < 2000 ∧ (1000:ℝ) ≠ 0 ∧ (2000:ℝ) ≤ 3000 ∧ (3000:ℝ) < 4000) ∧
    (calculate_friction_factor 1000 0.0001 0.5 = 64 / 1000 ∧
     calculate_friction_factor 1000 0.0001 0.5 = 0.064 ∧
     calculate_friction_factorE 0 0.0001 0.5 = .error .zeroDivisionError ∧
     calculate_friction_factor 3000 0.0001 0.5 = 0.5) :=
  ⟨by norm_num, friction_factor_branches 1000 3000 0.0001 0.5 (by norm_num) (by norm_num)
    (by norm_num) (by norm_num)⟩

/-- C5 (counterexample): two different precondition violations — zero
viscosity and zero heat capacity — make the invocation fail with the very
same generic `ZeroDivisionError`; the raised error therefore does not
identify which input violated its constraint, and no `PreconditionError`
exists in the code. -/
theorem error_does_not_identify_input :
    mainE pipe1 fluid1V heater1 32 = mainE pipe1 fluid1C heater1 32 ∧
    mainE pipe1 fluid1V heater1 32 = .error .zeroDivisionError := by
  rw [mainE_errV, mainE_errC]
  exact ⟨rfl, rfl⟩

/-- C5 (amended): when an arithmetic error condition arises (division by
zero, or square root of a negative value), the invocation fails fast with
the corresponding built-in exception — `ZeroDivisionError` or `ValueError` —
rather than returning infinities or NaNs; but the exception is generic and
does not name the offending input. -/
theorem main_fails_fast_on_arith_error :
    mainE pipe1 fluid1V heater1 32 = .error .zeroDivisionError ∧
    mainE pipe1 fluid1C heater1 32 = .error .zeroDivisionError ∧
    mainE pipe1 fluid1 heater1 (-32) = .error .valueError :=
  ⟨mainE_errV, mainE_errC, mainE_errS⟩

/-- C6: a single invocation of `main` leaves the shared `pipe`, `fluid` and
`heater` records exactly as they were: the final heap returned by the
state-threaded `main` is the initial one. -/
theorem main_preserves_inputs (p : Pipe) (fl : Fluid) (h : Heater) (dp : ℝ)
    (r : List (String × ℝ)) (s' : St)
    (hok : mainSt ⟨p, fl, h⟩ dp = .ok (r, s')) :
    s'.pipe = p ∧ s'.fluid = fl ∧ s'.heater = h := by
  have h2 := mainSt_ok_state ⟨p, fl, h⟩ dp (r, s') hok
  simp only at h2
  subst h2
  exact ⟨rfl, rfl, rfl⟩

/-- Witness for C6: the run at `pipe1`, `fluid1`, `heater1`, `Δp = 32`
succeeds and returns the untouched heap. -/
theorem main_preserves_inputs_witness :
    mainSt ⟨pipe1, fluid1, heater1⟩ 32 = .ok (res1, ⟨pipe1, fluid1, heater1⟩) ∧
    ((St.mk pipe1 fluid1 heater1).pipe = pipe1 ∧
     (St.mk pipe1 fluid1 heater1).fluid = fluid1 ∧
     (St.mk pipe1 fluid1 heater1).heater = heater1) :=
  ⟨mainSt_eval1,
    main_preserves_inputs pipe1 fluid1 heater1 32 res1 ⟨pipe1, fluid1, heater1⟩ mainSt_eval1⟩

/-- C7: the computed area equals `π·(d/2)²` (equivalently `π·d²/4`), the
temperature rise equals `power·efficiency / (ρ·v·area·c)`, and
`new_temperature` is the initial temperature plus `Δt`. -/
theorem area_and_temperature_formulas (d pw e ρ v A c : ℝ) (p : Pipe) (fl : Fluid)
    (h : Heater) (dp : ℝ) (hd : 0 < d) (hpe : 0 < pw * e) (hρ : 0 < ρ) (hv : 0 < v)
    (hA : 0 < A) (hc : 0 < c) :
    calculate_pipe_area d = Real.pi * (d / 2) ^ 2 ∧
    calculate_pipe_area d = Real.pi * d ^ 2 / 4 ∧
    calculate_temperature_change pw e ρ v A c = pw * e / (ρ * v * A * c) ∧
    (mainLocals p fl h dp).new_temperature =
      fl.temperature + (mainLocals p fl h dp).delta_t := by
  refine ⟨rfl, ?_, ?_, rfl⟩
  · unfold calculate_pipe_area; ring
  · unfold calculate_temperature_change; ring

/-- Witness for C7 at `d = 2` and unit heater/fluid parameters. -/
theorem area_and_temperature_formulas_witness :
    ((0:ℝ) < 2 ∧ (0:ℝ) < 1 * 1 ∧ (0:ℝ) < 1) ∧
    (calculate_pipe_area 2 = Real.pi * (2 / 2) ^ 2 ∧
     calculate_pipe_area 2 = Real.pi * 2 ^ 2 / 4 ∧
     calculate_temperature_change 1 1 1 1 1 1 = 1 * 1 / (1 * 1 * 1 * 1) ∧
     (mainLocals pipe1 fluid1 heater1 32).new_temperature =
       fluid1.temperature + (mainLocals pipe1 fluid1 heater1 32).delta_t) :=
  ⟨⟨by norm_num, by norm_num, by norm_num⟩,
    area_and_temperature_formulas 2 1 1 1 1 1 1 pipe1 fluid1 heater1 32 (by norm_num)
      (by norm_num) (by norm_num) (by norm_num) (by norm_num) (by norm_num)⟩

/-- C8: the viscosity update computes `μ·exp(−0.02·Δt)`; for `μ > 0` it is
strictly positive, strictly decreasing in `Δt`, and equals `μ` exactly at
`Δt = 0`. -/
theorem viscosity_update_properties (μ dt d1 d2 : ℝ) (hμ : 0 < μ) (hlt : d1 < d2) :
    calculate_new_viscosity μ beta_viscosity dt = μ * Real.exp (-(0.02) * dt) ∧
    0 < calculate_new_viscosity μ beta_viscosity dt ∧
    calculate_new_viscosity μ beta_viscosity d2 < calculate_new_viscosity μ beta_viscosity d1 ∧
    calculate_new_viscosity μ beta_viscosity 0 = μ := by
  refine ⟨rfl, mul_pos hμ (Real.exp_pos _), ?_, ?_⟩
  · apply mul_lt_mul_of_pos_left _ hμ
    apply Real.exp_lt_exp.mpr
    unfold beta_viscosity
    linarith
  · norm_num [calculate_new_viscosity, Real.exp_zero]

/-- Witness for C8 at `μ = 1`, `Δt = 5`, and the pair `Δt = 2 < 3`. -/
theorem viscosity_update_properties_witness :
    ((0:ℝ) < 1 ∧ (2:ℝ) < 3) ∧
    (calculate_new_viscosity 1 beta_viscosity 5 = 1 * Real.exp (-(0.02) * 5) ∧
     0 < calculate_new_viscosity 1 beta_viscosity 5 ∧
     calculate_new_viscosity 1 beta_viscosity 3 < calculate_new_viscosity 1 beta_viscosity 2 ∧
     calculate_new_viscosity 1 beta_viscosity 0 = 1) :=
  ⟨⟨by norm_num, by norm_num⟩,
    viscosity_update_properties 1 5 2 3 (by norm_num) (by norm_num)⟩

/-- C9: the density update returns `ρ·(1 − thermal_expansion·Δt)` unchanged,
with no floor: whenever `thermal_expansion·Δt ≥ 1` and `ρ > 0`, the returned
density is non-positive. -/
theorem density_update_no_floor (ρ te dt : ℝ) (hρ : 0 < ρ) (h1 : 1 ≤ te * dt) :
    calculate_new_density ρ te dt = ρ * (1 - te * dt) ∧
    calculate_new_density ρ te dt ≤ 0 := by
  refine ⟨rfl, ?_⟩
  unfold calculate_new_density
  nlinarith

/-- Witness for C9 at `ρ = 850`, `thermal_expansion = 1`, `Δt = 2`. -/
theorem density_update_no_floor_witness :
    ((0:ℝ) < 850 ∧ (1:ℝ) ≤ 1 * 2) ∧
    (calculate_new_density 850 1 2 = 850 * (1 - 1 * 2) ∧
     calculate_new_density 850 1 2 ≤ 0) :=
  ⟨⟨by norm_num, by norm_num⟩, density_update_no_floor 850 1 2 (by norm_num) (by norm_num)⟩

/-- C10: the sweep driver mutates the shared heater record in place: whenever
it returns successfully on a non-empty power range, the final heap's heater
has `power` equal to the last element of the range (it is not restored). -/
theorem sweep_mutates_heater_power (p : Pipe) (fl : Fluid) (h : Heater) (dp : ℝ)
    (power_range : List ℝ) (vs : List ℝ) (s' : St)
    (hne : power_range ≠ [])
    (hok : plot_velocity_vs_heating p fl h dp power_range = .ok (vs, s')) :
    power_range.getLast? = some s'.heater.power :=
  sweepLoop_last_power dp power_range ⟨p, fl, h⟩ [] vs s' hok hne

/-- Witness for C10: sweeping `power_range = [0]` from a heater whose power
starts at 500000 ends with the shared heater's power equal to 0, the last
element of the range. -/
theorem sweep_mutates_heater_power_witness :
    ([(0:ℝ)] ≠ []) ∧
    plot_velocity_vs_heating pipe1 fluid1 heater2 32 [0] =
      .ok ([1 / 10], ⟨pipe1, fluid1, heater1⟩) ∧
    [(0:ℝ)].getLast? = some (St.mk pipe1 fluid1 heater1).heater.power :=
  ⟨by simp, sweep_eval1,
    sweep_mutates_heater_power pipe1 fluid1 heater2 32 [0] [1 / 10]
      ⟨pipe1, fluid1, heater1⟩ (by simp) sweep_eval1⟩



